import Mathlib

/-!
Verification development for the Raiinmaker verification plugin.

The definitions below are a shallow embedding of the repository's
verification-task lifecycle code:

* the task status reducer `formatVerificationStatusResponse`
  (src/utils/responseFormatter.ts, plus the bundled copy in the dist file,
  which differs in the answer-decoding table);
* the pre-check service `preVerifyContent`
  (src/services/contentPreVerificationService.ts);
* the remote API client operations `createGenerationVerificationTask`,
  `getTaskById` and the retrying helper `getAgentValidation`
  (src/services/raiinmakerService.ts);
* the orchestrating action handler `verifyGenerationContent.handler`
  (the bundled dist variant, which contains the pre-check flow).

JavaScript-specific behaviour is made explicit: `x || d` falsiness on
strings is `jsOr`, fields that may be absent are `Option`s, a remote
payload field that may fail to be a list is a `VotesField`, exceptions are
`Except` (or an explicit error/success split), `uuidv4()` randomness is an
explicit supply of fresh strings, and `Date.now()` is an explicit input.
Wall-clock display strings (`toLocaleDateString` etc.) are elided.
-/

namespace Raiinmaker

/-- JS `x || d` for a string-valued field: `undefined`/`null`/`""` are falsy. -/
def jsOr (x : Option String) (d : String) : String :=
  match x with
  | none => d
  | some s => if s = "" then d else s

/-- JS `String.prototype.trim()`: strip leading and trailing whitespace.
(Written over the character list so that it evaluates by reduction.) -/
def jsTrim (s : String) : String :=
  String.mk (((s.data.dropWhile Char.isWhitespace).reverse.dropWhile
    Char.isWhitespace).reverse)

/-- One reviewer vote attached to a task.  Only the `answer` field is read by
the code under verification (reputation fields are informational and elided). -/
structure Vote where
  answer : Option String
deriving DecidableEq, Repr

/-- The `votes` field of a raw task payload, as a JavaScript value:
`missing` is `undefined`/`null` (falsy, so `task.votes || []` yields `[]`),
`arr` is a genuine array, and `junk` is a truthy non-array value, on which
`votes.filter(...)` raises a `TypeError`. -/
inductive VotesField where
  | missing
  | arr (votes : List Vote)
  | junk
deriving DecidableEq, Repr

/-- A task record with votes (`TaskWithVotes` in src/types.ts), restricted to
the fields the reducer and the client read.  Fields are `Option`s because the
remote schema is not trusted. -/
structure TaskWithVotes where
  id : Option String := none
  status : Option String := none
  question : Option String := none
  subject : Option String := none
  answer : Option String := none
  consensusVotes : Option Nat := none
  votes : VotesField := .missing
deriving DecidableEq, Repr

/-- The reduced view returned by the reducer (`VerificationStatusResponse`
in src/utils/responseFormatter.ts).  `answer = none` is the JS `null`
(unresolved); `votesYes`/`votesNo`/`formattedText` are optional fields,
omitted (`none`) in the degraded error response. -/
structure VerificationStatusResponse where
  taskId : String
  status : String
  answer : Option Bool
  question : String
  subject : String
  votesReceived : Nat
  votesRequired : Nat
  votesYes : Option Nat
  votesNo : Option Nat
  formattedText : Option String
deriving DecidableEq, Repr

/-- Answer decoding of src/utils/responseFormatter.ts lines 34-39:
`'true' | 'yes' | '1'` give `true`, `'false' | 'no' | '0'` give `false`,
anything else (including an absent answer) is `null`. -/
def parseTaskAnswer (answer : Option String) : Option Bool :=
  if answer = some "true" ∨ answer = some "yes" ∨ answer = some "1" then some true
  else if answer = some "false" ∨ answer = some "no" ∨ answer = some "0" then some false
  else none

/-- Answer decoding of the bundled dist copy of the reducer (part_005 lines
1345-1350), which lacks the `'1'`/`'0'` cases of the TypeScript source. -/
def parseTaskAnswerDist (answer : Option String) : Option Bool :=
  if answer = some "true" ∨ answer = some "yes" then some true
  else if answer = some "false" ∨ answer = some "no" then some false
  else none

/-- JS: `id.length > 8 ? id.substring(0, 8) + "..." : id`. -/
def shortIdOf (id : String) : String :=
  if 8 < id.length then id.take 8 ++ "..." else id

/-- Body of the reducer after the votes value has been resolved to an actual
list, parameterised by the answer-decoding table (the TS source and the
bundled dist differ only there). -/
def formatCoreWith (parse : Option String → Option Bool)
    (task : TaskWithVotes) (votes : List Vote) : VerificationStatusResponse :=
  let id := jsOr task.id ""
  let status := jsOr task.status "unknown"
  let question := jsOr task.question ""
  let subject := jsOr task.subject ""
  let parsedAnswer := parse task.answer
  let consensusVotes := task.consensusVotes.getD 0
  let yesVotes := votes.countP (fun v => v.answer == some "true")
  let noVotes := votes.countP (fun v => v.answer == some "false")
  let shortId := shortIdOf id
  let statusEmoji :=
    if status = "completed" then
      if parsedAnswer = some true then "✅" else "❌"
    else "⏳"
  let statusText :=
    if status = "completed" then
      "The verification is complete. The content was "
        ++ (if parsedAnswer = some true then "approved" else "rejected") ++ "."
    else if status = "pending" then
      "The verification is still in progress. " ++ toString votes.length
        ++ " of " ++ toString consensusVotes ++ " required votes collected."
    else
      "Status: " ++ status
  { taskId := id
    status := status
    answer := parsedAnswer
    question := question
    subject := subject
    votesReceived := votes.length
    votesRequired := consensusVotes
    votesYes := some yesVotes
    votesNo := some noVotes
    formattedText := some (statusEmoji ++ " Content Verification (ID: " ++ shortId
      ++ ") - " ++ statusText) }

/-- The `try` block of `formatVerificationStatusResponse`: the only statement
of the block that can raise on a (well-typed-fields) task record is
`votes.filter(...)` when the `votes` value is a truthy non-array. -/
def formatVerificationStatusResponseTry (task : TaskWithVotes) :
    Except Unit VerificationStatusResponse :=
  match task.votes with
  | .junk => .error ()
  | .missing => .ok (formatCoreWith parseTaskAnswer task [])
  | .arr l => .ok (formatCoreWith parseTaskAnswer task l)

/-- The degraded response built by the `catch` clause
(src/utils/responseFormatter.ts lines 86-95). -/
def degradedResponse (task : TaskWithVotes) : VerificationStatusResponse :=
  { taskId := jsOr task.id "unknown"
    status := "error"
    answer := none
    question := ""
    subject := ""
    votesReceived := 0
    votesRequired := 0
    votesYes := none
    votesNo := none
    formattedText := some "Error formatting verification response" }

/-- The task status reducer, src/utils/responseFormatter.ts
(`try` body plus `catch` fallback). -/
def formatVerificationStatusResponse (task : TaskWithVotes) : VerificationStatusResponse :=
  match formatVerificationStatusResponseTry task with
  | .ok r => r
  | .error _ => degradedResponse task

/-- The bundled dist copy of the reducer (part_005 lines 1339-1394); it
differs from the TypeScript source only in the answer-decoding table. -/
def formatVerificationStatusResponseDist (task : TaskWithVotes) : VerificationStatusResponse :=
  match task.votes with
  | .junk => degradedResponse task
  | .missing => formatCoreWith parseTaskAnswerDist task []
  | .arr l => formatCoreWith parseTaskAnswerDist task l

/-! ## UUID helper (src/utils/uuidHelpers.ts) -/

/-- Hexadecimal digit, case-insensitive (the `/i` flag of the source regex). -/
def isHexDigit (c : Char) : Bool :=
  c.isDigit || ('a' ≤ c && c ≤ 'f') || ('A' ≤ c && c ≤ 'F')

/-- Consume exactly `n` hexadecimal digits, returning the rest of the input. -/
def hexRun : Nat → List Char → Option (List Char)
  | 0, cs => some cs
  | _ + 1, [] => none
  | n + 1, c :: cs => if isHexDigit c then hexRun n cs else none

/-- The UUID shape `[0-9a-f]{8}-[0-9a-f]{4}-[0-9a-f]{4}-[0-9a-f]{4}-[0-9a-f]{12}`
(anchored on both ends), written as a sequential consumer so that it reduces
on strings whose (known) head already violates the shape. -/
def uuidShape (cs : List Char) : Bool :=
  match hexRun 8 cs with
  | some ('-' :: cs1) =>
    match hexRun 4 cs1 with
    | some ('-' :: cs2) =>
      match hexRun 4 cs2 with
      | some ('-' :: cs3) =>
        match hexRun 4 cs3 with
        | some ('-' :: cs4) =>
          match hexRun 12 cs4 with
          | some [] => true
          | _ => false
        | _ => false
      | _ => false
    | _ => false
  | _ => false

/-- The regex test of `ensureUUID` (src/utils/uuidHelpers.ts line 143). -/
def isUUIDFormat (s : String) : Bool :=
  uuidShape s.data

/-- Does `ensureUUID` fall through to `uuidv4()` on this input?  It does for
a falsy id (absent or empty) and for any id that fails the UUID regex. -/
def ensureUUIDConsumes (id : Option String) : Bool :=
  match id with
  | none => true
  | some s => s = "" || !isUUIDFormat s

/-- One call of `ensureUUID` against an explicit supply of `uuidv4()` draws:
returns the resulting id and the index of the next unused draw. -/
def ensureUUIDStep (id : Option String) (fresh : Nat → String) (k : Nat) :
    String × Nat :=
  if ensureUUIDConsumes id then (fresh k, k + 1) else (id.getD "", k)

/-- Function `ensureUUID` with a single fresh draw (src/utils/uuidHelpers.ts):
a falsy or non-UUID-shaped id is replaced by a freshly generated UUID. -/
def ensureUUID (id : Option String) (fresh : String) : String :=
  (ensureUUIDStep id (fun _ => fresh) 0).1

/-! ## Content pre-verification (src/services/contentPreVerificationService.ts) -/

/-- Result shape of the pre-check (`PreVerificationResult`). -/
structure PreVerificationResult where
  passes : Bool
  failedChecks : List String
  suggestedFix : Option String := none
deriving DecidableEq, Repr

/-- Behaviour of one invocation of the external completion API inside
`preVerifyContent`: the fetch can reject (`netError`), the decoded body can
carry an `error` field (which the code turns into a thrown error), the
completion content can fail to parse as JSON (`badParse`, also thrown), or a
well-formed verification result comes back. -/
inductive CollabOutcome where
  | netError
  | apiError (msg : String)
  | badParse
  | ok (result : PreVerificationResult)
deriving DecidableEq, Repr

/-- The environment `preVerifyContent` runs against: the
`isPreVerificationEnabled` feature gate, presence of the OpenAI key, and the
behaviour of the external collaborator call. -/
structure PreCheckEnv where
  enabled : Bool
  apiKeyPresent : Bool
  collab : CollabOutcome
deriving DecidableEq, Repr

/-- The `try` block of `preVerifyContent`: disabled or key-less runs return
an approving result without calling the collaborator; a collaborator
invocation either yields its parsed result or raises. -/
def preVerifyContentTry (env : PreCheckEnv) : Except Unit PreVerificationResult :=
  if !env.enabled then .ok { passes := true, failedChecks := [] }
  else if !env.apiKeyPresent then .ok { passes := true, failedChecks := [] }
  else
    match env.collab with
    | .netError => .error ()
    | .apiError _ => .error ()
    | .badParse => .error ()
    | .ok r => .ok r

/-- The function `preVerifyContent`: the `try` body with the `catch` clause that turns any
raised error into an approving result (lines 100-104 of the source). -/
def preVerifyContent (env : PreCheckEnv) : PreVerificationResult :=
  match preVerifyContentTry env with
  | .ok r => r
  | .error _ => { passes := true, failedChecks := [] }

/-! ## Remote task creation (src/services/raiinmakerService.ts,
`createGenerationVerificationTask`) -/

/-- The decoded body of the create-task POST: a `success` flag and the
optional `data.id` (`none` models a missing `data` object or a missing id). -/
structure CreateTaskPayload where
  success : Bool
  dataId : Option String
deriving DecidableEq, Repr

/-- Behaviour of the create-task HTTP exchange: the fetch can reject, or a
reply arrives with an ok/not-ok status and a body that may fail to parse
(`none`). -/
inductive CreateFetch where
  | network (msg : String)
  | reply (ok : Bool) (body : Option CreateTaskPayload)
deriving DecidableEq, Repr

/-- The validated value returned by `createGenerationVerificationTask`
(`success` flag and `data.id` of the response). -/
structure CreateTaskResponse where
  success : Bool
  id : String
deriving DecidableEq, Repr

/-- The service operation `createGenerationVerificationTask` (lines 425-539 of the service): empty
content is rejected locally before any network call; then the response text
is parsed (parse failure raises), non-ok statuses raise, and a body without a
truthy `success`, a `data` object and a `data.id` raises.  The task options
(name, consensusVotes default 3, question default) only shape the outbound
payload, which this model does not inspect. -/
def createGenerationVerificationTask (content : String) (f : CreateFetch) :
    Except String CreateTaskResponse :=
  if content = "" then .error "Content to verify is required"
  else
    match f with
    | .network msg => .error ("API request failed: " ++ msg)
    | .reply ok body =>
      match body with
      | none => .error "Failed to parse API response"
      | some p =>
        if !ok then .error "Task creation failed"
        else if !p.success then .error "Invalid response format"
        else
          match p.dataId with
          | none => .error "Invalid response format"
          | some i =>
            if i = "" then .error "Invalid response format"
            else .ok { success := p.success, id := i }

/-! ## Single-task lookup (src/services/raiinmakerService.ts, `getTaskById`) -/

/-- The raw `data` object of a `GET /task/:id` payload, before validation and
normalization. -/
structure RawTaskData where
  id : Option String := none
  status : Option String := none
  question : Option String := none
  subject : Option String := none
  answer : Option String := none
  consensusVotes : Option Nat := none
  votes : VotesField := .missing
deriving DecidableEq, Repr

/-- The decoded body of a `GET /task/:id` reply.  `success = none` models a
value whose `typeof` is not `boolean`. -/
structure RawTaskPayload where
  success : Option Bool
  data : Option RawTaskData
deriving DecidableEq, Repr

/-- Behaviour of the task-fetch HTTP exchange. -/
inductive TaskFetch where
  | network (msg : String)
  | reply (ok : Bool) (body : Option RawTaskPayload)
deriving DecidableEq, Repr

/-- The validated value returned by `getTaskById` (`SingleTaskResponse`). -/
structure SingleTaskResponse where
  success : Bool
  data : TaskWithVotes
deriving DecidableEq, Repr

/-- The service operation `getTaskById` (service lines 205-248): empty id fails locally with no
network call; `handleApiResponse` raises on a non-ok status or an
unparsable body; the payload must have a boolean `success`, a `data` object
and a truthy `data.id`; finally the `votes` field is forced to be a list
(`[]` when it is absent or not an array). -/
def getTaskById (taskId : String) (f : TaskFetch) : Except String SingleTaskResponse :=
  if taskId = "" then .error "Task ID is required"
  else
    match f with
    | .network msg => .error ("Error getting task by ID: " ++ msg)
    | .reply ok body =>
      if !ok then .error "API error"
      else
        match body with
        | none => .error "Failed to parse JSON response from getTaskById"
        | some raw =>
          match raw.success, raw.data with
          | none, _ => .error "Invalid task data returned from API"
          | some _, none => .error "Invalid task data returned from API"
          | some s, some d =>
            match d.id with
            | none => .error "Invalid task data returned from API"
            | some i =>
              if i = "" then .error "Invalid task data returned from API"
              else
                .ok { success := s
                      data := { id := some i
                                status := d.status
                                question := d.question
                                subject := d.subject
                                answer := d.answer
                                consensusVotes := d.consensusVotes
                                votes := match d.votes with
                                         | .arr l => .arr l
                                         | _ => .arr [] } }

/-! ## Retrying validation helper (src/services/raiinmakerService.ts,
`getAgentValidation`) -/

/-- Behaviour of one `POST /validate` attempt: the fetch (or reading the
body) can reject (`netFail`), the reply can be non-ok (`httpFail`, the only
case the code retries), or a decoded body arrives. -/
inductive ValidationOutcome where
  | netFail
  | httpFail (status : Nat) (body : String)
  | success (classification : Option String) (message : Option String)
deriving DecidableEq, Repr

/-- The response shape built by `getAgentValidation` on success.  The
`date`/`time` fields (wall-clock display renderings) are elided. -/
structure AgentValidationResponse where
  classification : String
  message : String
  url : String
deriving DecidableEq, Repr

/-- Observable outcome of a `getAgentValidation` run: the surfaced result,
the sequence of backoff delays in seconds (one before each retry), and the
total number of fetch attempts made. -/
structure ValidationRun where
  result : Except String AgentValidationResponse
  delays : List Nat
  fetches : Nat
deriving Repr

/-- The recursion of `getAgentValidation`, with the retry budget
`maxAttempts - attempts` passed as structural fuel: the source guard
`attempts < maxAttempts` holds exactly when the fuel is non-zero, and the
recursive call at `attempts + 1` has fuel `maxAttempts - (attempts + 1)`.
A network-level rejection is caught by the `catch` clause, logged and
rethrown: no retry.  A non-ok reply retries after `2 ^ attempts` seconds
while budget remains, and otherwise surfaces the last error. -/
def getAgentValidationGo (outcomes : Nat → ValidationOutcome) (attempts fuel : Nat) :
    ValidationRun :=
  match outcomes attempts with
  | .netFail =>
    { result := .error "Error during data verification", delays := [], fetches := 1 }
  | .httpFail st body =>
    match fuel with
    | 0 =>
      { result := .error ("Request failed with status " ++ toString st ++ ": " ++ body)
        delays := [], fetches := 1 }
    | f + 1 =>
      let rest := getAgentValidationGo outcomes (attempts + 1) f
      { result := rest.result
        delays := 2 ^ attempts :: rest.delays
        fetches := rest.fetches + 1 }
  | .success c m =>
    { result := .ok { classification := jsOr c "unknown"
                      message := jsOr m "No message provided"
                      url := "https://seed.raiinmaker.com" }
      delays := [], fetches := 1 }

/-- The helper `getAgentValidation(apiKey, appId, data, attempts = 0, maxAttempts = 5)`
(service lines 556-618): missing credentials raise before any network
attempt; otherwise the retry loop starts at attempt 0. -/
def getAgentValidation (apiKey appId : String) (outcomes : Nat → ValidationOutcome) :
    ValidationRun :=
  if apiKey = "" ∨ appId = "" then
    { result := .error "API key and App ID are required", delays := [], fetches := 0 }
  else
    getAgentValidationGo outcomes 0 5

/-! ## The verification orchestrator
(`verifyGenerationContent.handler`, bundled dist part_005 lines 1148-1330 —
the variant that contains the pre-verification flow) -/

/-- The zod-validated options object of the action. -/
structure HandlerOptions where
  content : Option String := none
  consensusVotes : Option Nat := none
  question : Option String := none
  roomId : Option String := none
  name : Option String := none
  skipPreVerification : Option Bool := none
deriving DecidableEq, Repr

/-- The fields of the incoming message the handler reads. -/
structure MessageInfo where
  userId : Option String := none
  roomId : Option String := none
  text : String := ""
deriving DecidableEq, Repr

/-- The collaborators and ambient inputs of one handler invocation:
configuration validation, the pre-check environment, the remote create-task
endpoint, the free-text extractor (regex heuristics, treated as an external
collaborator), `Date.now()`, and the successive `uuidv4()` draws. -/
structure HandlerEnv where
  configOk : Bool
  pre : PreCheckEnv
  createFetch : CreateFetch
  extract : String → String
  now : Nat
  fresh : Nat → String

/-- Externally observable effects of a handler run, in order: remote
create-task calls, audit memory writes (tag and task id of the entry's
metadata), and callback invocations (structured `status`, `taskId` and
`verificationResult` fields; the free-form prose text is elided). -/
inductive HandlerEffect where
  | remoteCreateCall (content : String)
  | memoryWrite (taskType : String) (taskId : String)
  | callbackCall (status : Option String) (taskId : Option String)
      (result : Option VerificationStatusResponse)
deriving DecidableEq, Repr

/-- The auto-approval `verificationResult` literal emitted by the handler
(dist lines 1216-1227). -/
def autoApprovedResult (autoId content : String) : VerificationStatusResponse :=
  { taskId := autoId
    status := "completed"
    answer := some true
    question := "Is this content appropriate for posting?"
    subject := content
    votesReceived := 0
    votesRequired := 0
    votesYes := some 0
    votesNo := some 0
    formattedText := some "✅ Content Verification - The verification is complete. The content was approved automatically by AI." }

/-- The human-verification branch of the handler (dist lines 1251-1311): one
remote create call; a thrown service error reaches the outer catch, which
issues an error callback and returns `false`; a response without an id also
fails; otherwise one audit memory entry tagged `contentVerification` is
written and the callback reports `status: "pending"` with the task id. -/
def createTaskPath (env : HandlerEnv) (contentToVerify : String) :
    List HandlerEffect × Bool :=
  match createGenerationVerificationTask contentToVerify env.createFetch with
  | .error _ =>
    ([.remoteCreateCall contentToVerify, .callbackCall none none none], false)
  | .ok resp =>
    if resp.id = "" then
      ([.remoteCreateCall contentToVerify, .callbackCall none none none], false)
    else
      ([.remoteCreateCall contentToVerify,
        .memoryWrite "contentVerification" resp.id,
        .callbackCall (some "pending") (some resp.id) none], true)

/-- The handler of `verifyGenerationContent` (dist lines 1148-1330), as a map from
its inputs to the effect trace and the returned Boolean.  Memory-row ids,
`agentId` and `roomId` (all passed through `ensureUUID`) do not appear in any
tracked effect and their fresh draws are not threaded further. -/
def verifyGenerationContentHandler (env : HandlerEnv) (msg : MessageInfo)
    (opts : Option HandlerOptions) : List HandlerEffect × Bool :=
  if !env.configOk then
    ([.callbackCall none none none], false)
  else
    let contentToVerify :=
      match opts with
      | some o =>
        match o.content with
        | some c => if c = "" then env.extract msg.text else c
        | none => env.extract msg.text
      | none => env.extract msg.text
    if jsTrim contentToVerify = "" then
      ([.callbackCall none none none], false)
    else
      let k1 := (ensureUUIDStep msg.userId env.fresh 0).2
      let skip :=
        match opts with
        | some o => o.skipPreVerification.getD false
        | none => false
      if skip then
        createTaskPath env contentToVerify
      else
        let preResult := preVerifyContent env.pre
        if preResult.passes then
          let autoId :=
            (ensureUUIDStep (some ("auto-verified-" ++ toString env.now)) env.fresh k1).1
          ([.callbackCall (some "approved") (some autoId)
              (some (autoApprovedResult autoId contentToVerify)),
            .memoryWrite "contentAutoApproved" autoId], true)
        else
          createTaskPath env contentToVerify

/-! ## Effect-trace observers -/

/-- Is this effect a remote create-task call? -/
def isCreateCall : HandlerEffect → Bool
  | .remoteCreateCall _ => true
  | _ => false

/-- Is this effect an audit memory write with the given task-type tag? -/
def isMemoryWriteTagged (tag : String) : HandlerEffect → Bool
  | .memoryWrite t _ => t == tag
  | _ => false

/-- The `status` fields of the callback invocations of a trace, in order. -/
def callbackStatuses (effs : List HandlerEffect) : List (Option String) :=
  effs.filterMap fun e =>
    match e with
    | .callbackCall st _ _ => some st
    | _ => none

/-- The `taskId` fields of the callback invocations of a trace, in order. -/
def callbackTaskIds (effs : List HandlerEffect) : List (Option String) :=
  effs.filterMap fun e =>
    match e with
    | .callbackCall _ tid _ => some tid
    | _ => none

/-- The `verificationResult` fields of the callback invocations, in order. -/
def callbackResults (effs : List HandlerEffect) :
    List (Option VerificationStatusResponse) :=
  effs.filterMap fun e =>
    match e with
    | .callbackCall _ _ r => some r
    | _ => none

/-! ## Helper lemmas -/

theorem formatCoreWith_answer (p : Option String → Option Bool)
    (task : TaskWithVotes) (votes : List Vote) :
    (formatCoreWith p task votes).answer = p task.answer := rfl

theorem reducer_answer_eq_parse (task : TaskWithVotes)
    (h : task.votes ≠ VotesField.junk) :
    (formatVerificationStatusResponse task).answer = parseTaskAnswer task.answer := by
  unfold formatVerificationStatusResponse formatVerificationStatusResponseTry
  cases hv : task.votes with
  | junk => exact absurd hv h
  | missing => rfl
  | arr l => rfl

theorem reducerDist_answer_eq_parse (task : TaskWithVotes)
    (h : task.votes ≠ VotesField.junk) :
    (formatVerificationStatusResponseDist task).answer = parseTaskAnswerDist task.answer := by
  unfold formatVerificationStatusResponseDist
  cases hv : task.votes with
  | junk => exact absurd hv h
  | missing => rfl
  | arr l => rfl

theorem countP_disjoint_le {α : Type} (p q : α → Bool)
    (h : ∀ a, p a = true → q a = false) (l : List α) :
    l.countP p + l.countP q ≤ l.length := by
  induction l with
  | nil => simp
  | cons a t ih =>
    rw [List.countP_cons, List.countP_cons, List.length_cons]
    have hpq := h a
    split <;> split <;>
      first
      | omega
      | (rename_i h1 h2; exact absurd h2 (by simp [hpq h1]))

theorem isUUIDFormat_autoVerified (r : String) :
    isUUIDFormat ("auto-verified-" ++ r) = false := rfl

theorem createTask_ok_id {content : String} {f : CreateFetch} {r : CreateTaskResponse}
    (h : createGenerationVerificationTask content f = Except.ok r) : r.id ≠ "" := by
  revert h
  unfold createGenerationVerificationTask
  split
  · intro h; exact Except.noConfusion h
  · split
    · intro h; exact Except.noConfusion h
    · split
      · intro h; exact Except.noConfusion h
      · split
        · intro h; exact Except.noConfusion h
        · split
          · intro h; exact Except.noConfusion h
          · split
            · intro h; exact Except.noConfusion h
            · split
              · intro h; exact Except.noConfusion h
              · rename_i hne
                intro h
                injection h with h1
                rw [← h1]
                exact hne

/-! ## Claims about the task status reducer -/

/-- C2.  As stated, the claim is false: the TypeScript source of the reducer
(src/utils/responseFormatter.ts lines 34-39) also decodes `"1"` to `true`,
so the string `"1"` — which is neither `"true"` nor `"yes"` — does not yield
`null` even for a completed task. -/
theorem reducer_answer_one_decodes_true :
    (formatVerificationStatusResponse
      { id := some "task-0001", status := some "completed", answer := some "1",
        votes := VotesField.arr [] }).answer = some true ∧
    (formatVerificationStatusResponse
      { id := some "task-0001", status := some "completed", answer := some "1",
        votes := VotesField.arr [] }).answer ≠ none := by
  decide

/-- C2 (amended).  The reducer decodes the task-level answer by exact,
case-sensitive match, independently of `status`: in the TypeScript source,
`"true"`/`"yes"`/`"1"` yield `true`, `"false"`/`"no"`/`"0"` yield `false`,
and any other (or absent) answer yields `null`; the bundled dist copy of the
reducer accepts only `"true"`/`"yes"` and `"false"`/`"no"`. -/
theorem reducer_answer_decoding :
    (∀ task : TaskWithVotes, task.votes ≠ VotesField.junk →
      (formatVerificationStatusResponse task).answer = parseTaskAnswer task.answer) ∧
    (∀ a : Option String,
      parseTaskAnswer a = some true ↔ a = some "true" ∨ a = some "yes" ∨ a = some "1") ∧
    (∀ a : Option String,
      parseTaskAnswer a = some false ↔ a = some "false" ∨ a = some "no" ∨ a = some "0") ∧
    (∀ task : TaskWithVotes, task.votes ≠ VotesField.junk →
      (formatVerificationStatusResponseDist task).answer = parseTaskAnswerDist task.answer) ∧
    (∀ a : Option String,
      parseTaskAnswerDist a = some true ↔ a = some "true" ∨ a = some "yes") ∧
    (∀ a : Option String,
      parseTaskAnswerDist a = some false ↔ a = some "false" ∨ a = some "no") := by
  refine ⟨reducer_answer_eq_parse, ?_, ?_, reducerDist_answer_eq_parse, ?_, ?_⟩
  · intro a
    constructor
    · intro hres
      unfold parseTaskAnswer at hres
      split_ifs at hres with h1 h2 <;>
        first
        | exact h1
        | exact absurd hres (by simp)
    · intro hdisj
      unfold parseTaskAnswer
      rw [if_pos hdisj]
  · intro a
    constructor
    · intro hres
      unfold parseTaskAnswer at hres
      split_ifs at hres with h1 h2 <;>
        first
        | exact h2
        | exact absurd hres (by simp)
    · intro hdisj
      have h1 : ¬(a = some "true" ∨ a = some "yes" ∨ a = some "1") := by
        rcases hdisj with h | h | h <;> subst h <;> simp
      unfold parseTaskAnswer
      rw [if_neg h1, if_pos hdisj]
  · intro a
    constructor
    · intro hres
      unfold parseTaskAnswerDist at hres
      split_ifs at hres with h1 h2 <;>
        first
        | exact h1
        | exact absurd hres (by simp)
    · intro hdisj
      unfold parseTaskAnswerDist
      rw [if_pos hdisj]
  · intro a
    constructor
    · intro hres
      unfold parseTaskAnswerDist at hres
      split_ifs at hres with h1 h2 <;>
        first
        | exact h2
        | exact absurd hres (by simp)
    · intro hdisj
      have h1 : ¬(a = some "true" ∨ a = some "yes") := by
        rcases hdisj with h | h <;> subst h <;> simp
      unfold parseTaskAnswerDist
      rw [if_neg h1, if_pos hdisj]

/-- A concrete pending task whose answer string is `"yes"`. -/
def sampleTaskYes : TaskWithVotes :=
  { answer := some "yes", status := some "pending", votes := VotesField.arr [] }

theorem reducer_answer_decoding_witness :
    sampleTaskYes.votes ≠ VotesField.junk ∧
    (formatVerificationStatusResponse sampleTaskYes).answer = parseTaskAnswer (some "yes") :=
  ⟨by decide, reducer_answer_decoding.1 sampleTaskYes (by decide)⟩

/-- C3.  As stated, the claim is false: the reducer decodes the `answer`
string without consulting `status`, so a pending task whose answer string is
`"true"` is reported with `answer == true`, not `null`. -/
theorem reducer_pending_answer_true :
    (formatVerificationStatusResponse
      { id := some "task-0002", status := some "pending", answer := some "true",
        votes := VotesField.arr [] }).answer = some true ∧
    (formatVerificationStatusResponse
      { id := some "task-0002", status := some "pending", answer := some "true",
        votes := VotesField.arr [] }).answer ≠ none := by
  decide

/-- C3 (amended).  For every task record whose status is not `"completed"`,
the reducer's `answer` field is decoded from the task-level answer string in
exactly the same way as for completed tasks (so it is `null` precisely when
the answer string is absent or unrecognized, not regardless of it). -/
theorem reducer_answer_ignores_status :
    ∀ task : TaskWithVotes, task.votes ≠ VotesField.junk →
      jsOr task.status "unknown" ≠ "completed" →
      (formatVerificationStatusResponse task).answer = parseTaskAnswer task.answer := by
  intro task hv _
  exact reducer_answer_eq_parse task hv

/-- A concrete pending task whose answer string is unrecognized. -/
def sampleTaskMaybe : TaskWithVotes :=
  { status := some "pending", answer := some "maybe", votes := VotesField.arr [] }

theorem reducer_answer_ignores_status_witness :
    sampleTaskMaybe.votes ≠ VotesField.junk ∧
    jsOr sampleTaskMaybe.status "unknown" ≠ "completed" ∧
    (formatVerificationStatusResponse sampleTaskMaybe).answer = parseTaskAnswer (some "maybe") :=
  ⟨by decide, by decide,
   reducer_answer_ignores_status sampleTaskMaybe (by decide) (by decide)⟩

/-- C6.  The reducer is a total function (it never raises): on any internal
fault of its `try` body — in this embedding, a `votes` value that is a truthy
non-array, on which the vote filter raises — it returns the degraded
response with `status == "error"`, a `null` answer and empty `question` and
`subject`, rather than propagating the exception. -/
theorem reducer_never_raises :
    ∀ task : TaskWithVotes,
      formatVerificationStatusResponseTry task = Except.error () →
      formatVerificationStatusResponse task = degradedResponse task ∧
      (formatVerificationStatusResponse task).status = "error" ∧
      (formatVerificationStatusResponse task).answer = none ∧
      (formatVerificationStatusResponse task).question = "" ∧
      (formatVerificationStatusResponse task).subject = "" := by
  intro task h
  have he : formatVerificationStatusResponse task = degradedResponse task := by
    unfold formatVerificationStatusResponse
    rw [h]
  exact ⟨he, by rw [he]; rfl, by rw [he]; rfl, by rw [he]; rfl, by rw [he]; rfl⟩

/-- A concrete task whose `votes` value is a truthy non-array. -/
def junkVotesTask : TaskWithVotes := { votes := VotesField.junk }

theorem reducer_never_raises_witness :
    formatVerificationStatusResponseTry junkVotesTask = Except.error () ∧
    (formatVerificationStatusResponse junkVotesTask).status = "error" :=
  ⟨rfl, (reducer_never_raises junkVotesTask rfl).2.1⟩

/-- C7.  `votesYes` counts exactly the votes whose answer is the string
`"true"`, `votesNo` those whose answer is `"false"`; any other per-vote
answer is excluded from both tallies, so the two tallies sum to at most the
number of votes; and `votesReceived` is exactly the length of the vote
list. -/
theorem reducer_vote_tally :
    ∀ (task : TaskWithVotes) (l : List Vote), task.votes = VotesField.arr l →
      (formatVerificationStatusResponse task).votesYes
          = some (l.countP (fun v => v.answer == some "true")) ∧
      (formatVerificationStatusResponse task).votesNo
          = some (l.countP (fun v => v.answer == some "false")) ∧
      l.countP (fun v => v.answer == some "true")
          + l.countP (fun v => v.answer == some "false") ≤ l.length ∧
      (formatVerificationStatusResponse task).votesReceived = l.length := by
  intro task l hv
  have hfmt : formatVerificationStatusResponse task = formatCoreWith parseTaskAnswer task l := by
    unfold formatVerificationStatusResponse formatVerificationStatusResponseTry
    rw [hv]
  refine ⟨by rw [hfmt]; rfl, by rw [hfmt]; rfl, ?_, by rw [hfmt]; rfl⟩
  refine countP_disjoint_le _ _ (fun v hp => ?_) l
  have hv' : v.answer = some "true" := by simpa using hp
  simp [hv']

/-- A concrete vote list with one yes, one no, one unrecognized answer and
one absent answer. -/
def sampleVotes : List Vote :=
  [{ answer := some "true" }, { answer := some "false" },
   { answer := some "maybe" }, { answer := none }]

/-- A concrete pending task carrying `sampleVotes`. -/
def sampleTallyTask : TaskWithVotes :=
  { status := some "pending", votes := VotesField.arr sampleVotes }

theorem reducer_vote_tally_witness :
    sampleTallyTask.votes = VotesField.arr sampleVotes ∧
    (formatVerificationStatusResponse sampleTallyTask).votesYes = some 1 ∧
    (formatVerificationStatusResponse sampleTallyTask).votesReceived = 4 :=
  ⟨rfl,
   ((reducer_vote_tally sampleTallyTask sampleVotes rfl).1).trans (by decide),
   ((reducer_vote_tally sampleTallyTask sampleVotes rfl).2.2.2).trans (by decide)⟩

/-- C10.  For a completed task whose answer decodes to `null` (unresolved),
the human-readable rendering collapses the unresolved state into a
rejection: the formatted text is the cross glyph followed by
"... The content was rejected.", even though the structured `answer` field
of the same response is `null`. -/
theorem reducer_unresolved_completed_shows_rejected :
    ∀ task : TaskWithVotes, task.votes ≠ VotesField.junk →
      jsOr task.status "unknown" = "completed" →
      parseTaskAnswer task.answer = none →
      (formatVerificationStatusResponse task).answer = none ∧
      (formatVerificationStatusResponse task).formattedText
        = some ("❌ Content Verification (ID: " ++ shortIdOf (jsOr task.id "")
            ++ ") - The verification is complete. The content was rejected.") := by
  intro task hv hst hans
  have hcore : ∀ l : List Vote,
      (formatCoreWith parseTaskAnswer task l).formattedText
        = some ("❌ Content Verification (ID: " ++ shortIdOf (jsOr task.id "")
            ++ ") - The verification is complete. The content was rejected.") := by
    intro l
    unfold formatCoreWith
    simp only [hst, hans]
    refine congrArg some (String.ext ?_)
    simp
  constructor
  · rw [reducer_answer_eq_parse task hv, hans]
  · unfold formatVerificationStatusResponse formatVerificationStatusResponseTry
    cases hvv : task.votes with
    | junk => exact absurd hvv hv
    | missing => exact hcore []
    | arr l => exact hcore l

/-- A concrete completed task whose answer string decodes to `null`. -/
def sampleUnresolvedTask : TaskWithVotes :=
  { id := some "0123456789ab", status := some "completed", answer := some "banana",
    votes := VotesField.arr [] }

theorem reducer_unresolved_completed_shows_rejected_witness :
    sampleUnresolvedTask.votes ≠ VotesField.junk ∧
    jsOr sampleUnresolvedTask.status "unknown" = "completed" ∧
    parseTaskAnswer sampleUnresolvedTask.answer = none ∧
    (formatVerificationStatusResponse sampleUnresolvedTask).formattedText
      = some "❌ Content Verification (ID: 01234567...) - The verification is complete. The content was rejected." :=
  ⟨by decide, by decide, by decide,
   ((reducer_unresolved_completed_shows_rejected sampleUnresolvedTask
      (by decide) (by decide) (by decide)).2).trans (by decide)⟩

/-! ## Claims about the API client -/

/-- C8.  A successful `getTaskById` whose payload omits the `votes` field, or
carries a `votes` value that is not a list, does not raise: the operation
succeeds and the returned task's `votes` field is the empty list. -/
theorem getTaskById_votes_normalized :
    ∀ (taskId : String) (s : Bool) (st q sub a : Option String) (cv : Option Nat)
      (v : VotesField) (i : String),
      taskId ≠ "" → i ≠ "" → (∀ l, v ≠ VotesField.arr l) →
      getTaskById taskId (TaskFetch.reply true (some
          { success := some s
            data := some { id := some i, status := st, question := q, subject := sub,
                           answer := a, consensusVotes := cv, votes := v } })) =
        Except.ok { success := s
                    data := { id := some i, status := st, question := q, subject := sub,
                              answer := a, consensusVotes := cv,
                              votes := VotesField.arr [] } } := by
  intro taskId s st q sub a cv v i ht hine hv
  unfold getTaskById
  rw [if_neg ht]
  cases hvv : v with
  | junk => simp only [Bool.not_true, Bool.false_eq_true, if_false]; rw [if_neg hine]
  | missing => simp only [Bool.not_true, Bool.false_eq_true, if_false]; rw [if_neg hine]
  | arr l => exact absurd hvv (hv l)

theorem getTaskById_votes_normalized_witness :
    ("task-77" ≠ "") ∧
    (getTaskById "task-77" (TaskFetch.reply true (some
        { success := some true
          data := some { id := some "task-77", status := some "pending",
                         question := some "q", subject := some "s",
                         answer := none, consensusVotes := some 3,
                         votes := VotesField.missing } })) =
      Except.ok { success := true
                  data := { id := some "task-77", status := some "pending",
                            question := some "q", subject := some "s",
                            answer := none, consensusVotes := some 3,
                            votes := VotesField.arr [] } }) :=
  ⟨by decide,
   getTaskById_votes_normalized "task-77" true (some "pending") (some "q") (some "s")
     none (some 3) VotesField.missing "task-77"
     (by decide) (by decide) (fun l => by simp)⟩

/-- C9.  Whenever the pre-check collaborator call does not come back with a
parsed result — it rejects at the network level, reports an upstream API
error, or returns an unparsable completion — `preVerifyContent` recovers
locally and returns the approving result `passes == true` with an empty
`failedChecks` list; the failure is never propagated (the function is
total). -/
theorem preVerifyContent_fail_open :
    ∀ env : PreCheckEnv, (∀ r, env.collab ≠ CollabOutcome.ok r) →
      preVerifyContent env = { passes := true, failedChecks := [], suggestedFix := none } := by
  intro env h
  unfold preVerifyContent preVerifyContentTry
  cases henb : env.enabled with
  | false => rfl
  | true =>
    cases hkey : env.apiKeyPresent with
    | false => rfl
    | true =>
      cases hc : env.collab with
      | netError => rfl
      | apiError msg => rfl
      | badParse => rfl
      | ok r => exact absurd hc (h r)

/-- A concrete pre-check environment whose collaborator call rejects. -/
def failingPreCheckEnv : PreCheckEnv :=
  { enabled := true, apiKeyPresent := true, collab := CollabOutcome.netError }

theorem preVerifyContent_fail_open_witness :
    preVerifyContent failingPreCheckEnv
      = { passes := true, failedChecks := [], suggestedFix := none } :=
  preVerifyContent_fail_open failingPreCheckEnv (fun r h => by cases h)

/-- C4.  As stated, the claim is false on two counts: a network-level failure
is not retried at all (the `catch` clause logs and rethrows immediately, so a
run against an always-rejecting network makes exactly one attempt and
observes no backoff delay), and an always-failing HTTP endpoint is attempted
6 times in total (the initial attempt plus 5 retries), not 5. -/
theorem getAgentValidation_no_retry_on_network_failure :
    (getAgentValidation "api-key" "app-id" (fun _ => ValidationOutcome.netFail)).delays = [] ∧
    (getAgentValidation "api-key" "app-id" (fun _ => ValidationOutcome.netFail)).fetches = 1 ∧
    (getAgentValidation "api-key" "app-id" (fun _ => ValidationOutcome.netFail)).result
      = Except.error "Error during data verification" ∧
    (getAgentValidation "api-key" "app-id"
      (fun _ => ValidationOutcome.httpFail 500 "boom")).fetches = 6 ∧
    (getAgentValidation "api-key" "app-id"
      (fun _ => ValidationOutcome.httpFail 500 "boom")).delays = [1, 2, 4, 8, 16] :=
  ⟨rfl, rfl, rfl, rfl, rfl⟩

/-- One retried step of the validation loop: a non-ok reply with retry budget
remaining delays `2 ^ attempts` seconds and re-runs the next attempt. -/
theorem getAgentValidationGo_httpFail_step (outcomes : Nat → ValidationOutcome)
    (attempts f st : Nat) (body : String)
    (h : outcomes attempts = ValidationOutcome.httpFail st body) :
    getAgentValidationGo outcomes attempts (f + 1) =
      { result := (getAgentValidationGo outcomes (attempts + 1) f).result
        delays := 2 ^ attempts :: (getAgentValidationGo outcomes (attempts + 1) f).delays
        fetches := (getAgentValidationGo outcomes (attempts + 1) f).fetches + 1 } := by
  conv_lhs => unfold getAgentValidationGo
  rw [h]

/-- An exhausted retry budget surfaces the last HTTP error. -/
theorem getAgentValidationGo_httpFail_exhausted (outcomes : Nat → ValidationOutcome)
    (attempts st : Nat) (body : String)
    (h : outcomes attempts = ValidationOutcome.httpFail st body) :
    getAgentValidationGo outcomes attempts 0 =
      { result := Except.error ("Request failed with status " ++ toString st ++ ": " ++ body)
        delays := [], fetches := 1 } := by
  conv_lhs => unfold getAgentValidationGo
  rw [h]

/-- A successful reply ends the loop with no further delay. -/
theorem getAgentValidationGo_success (outcomes : Nat → ValidationOutcome)
    (attempts f : Nat) (c m : Option String)
    (h : outcomes attempts = ValidationOutcome.success c m) :
    getAgentValidationGo outcomes attempts f =
      { result := Except.ok { classification := jsOr c "unknown"
                              message := jsOr m "No message provided"
                              url := "https://seed.raiinmaker.com" }
        delays := [], fetches := 1 } := by
  conv_lhs => unfold getAgentValidationGo
  cases f <;> rw [h]

/-- A network-level rejection is rethrown at once, with no retry. -/
theorem getAgentValidationGo_netFail (outcomes : Nat → ValidationOutcome)
    (attempts f : Nat) (h : outcomes attempts = ValidationOutcome.netFail) :
    getAgentValidationGo outcomes attempts f =
      { result := Except.error "Error during data verification"
        delays := [], fetches := 1 } := by
  conv_lhs => unfold getAgentValidationGo
  cases f <;> rw [h]

theorem getAgentValidation_credentials_ok (apiKey appId : String)
    (outcomes : Nat → ValidationOutcome) (hA : apiKey ≠ "") (hB : appId ≠ "") :
    getAgentValidation apiKey appId outcomes = getAgentValidationGo outcomes 0 5 := by
  unfold getAgentValidation
  rw [if_neg (by simp [hA, hB])]

/-- C4 (amended).  The retry policy of the underlying call of
`getDataVerification`: only non-success HTTP responses are retried, with a
delay of `2 ^ attempt` seconds before each retry (1, 2, 4, 8, 16 s), up to 5
retries — that is, up to 6 attempts in total — after which the last error is
surfaced; a network-level failure is surfaced immediately without any retry.
If the first 2 attempts fail with HTTP errors and the third succeeds, the
successful result is returned after exactly 2 delays totalling 3 seconds. -/
theorem getAgentValidation_retry_policy :
    ∀ (outcomes : Nat → ValidationOutcome) (apiKey appId : String),
      apiKey ≠ "" → appId ≠ "" →
      (((∀ n, n ≤ 5 → ∃ st b, outcomes n = ValidationOutcome.httpFail st b)) →
        (getAgentValidation apiKey appId outcomes).fetches = 6 ∧
        (getAgentValidation apiKey appId outcomes).delays = [1, 2, 4, 8, 16] ∧
        (getAgentValidation apiKey appId outcomes).result.isOk = false) ∧
      (∀ (st0 : Nat) (b0 : String) (st1 : Nat) (b1 : String) (c m : Option String),
        outcomes 0 = ValidationOutcome.httpFail st0 b0 →
        outcomes 1 = ValidationOutcome.httpFail st1 b1 →
        outcomes 2 = ValidationOutcome.success c m →
        (getAgentValidation apiKey appId outcomes).result
            = Except.ok { classification := jsOr c "unknown"
                          message := jsOr m "No message provided"
                          url := "https://seed.raiinmaker.com" } ∧
        (getAgentValidation apiKey appId outcomes).delays = [1, 2] ∧
        (getAgentValidation apiKey appId outcomes).delays.sum = 3 ∧
        (getAgentValidation apiKey appId outcomes).fetches = 3) ∧
      (outcomes 0 = ValidationOutcome.netFail →
        (getAgentValidation apiKey appId outcomes).fetches = 1 ∧
        (getAgentValidation apiKey appId outcomes).delays = [] ∧
        (getAgentValidation apiKey appId outcomes).result.isOk = false) := by
  intro outcomes apiKey appId hA hB
  rw [getAgentValidation_credentials_ok apiKey appId outcomes hA hB]
  refine ⟨?_, ?_, ?_⟩
  · intro hall
    obtain ⟨st0, b0, h0⟩ := hall 0 (by omega)
    obtain ⟨st1, b1, h1⟩ := hall 1 (by omega)
    obtain ⟨st2, b2, h2⟩ := hall 2 (by omega)
    obtain ⟨st3, b3, h3⟩ := hall 3 (by omega)
    obtain ⟨st4, b4, h4⟩ := hall 4 (by omega)
    obtain ⟨st5, b5, h5⟩ := hall 5 (by omega)
    rw [getAgentValidationGo_httpFail_step outcomes 0 4 st0 b0 h0,
        getAgentValidationGo_httpFail_step outcomes 1 3 st1 b1 h1,
        getAgentValidationGo_httpFail_step outcomes 2 2 st2 b2 h2,
        getAgentValidationGo_httpFail_step outcomes 3 1 st3 b3 h3,
        getAgentValidationGo_httpFail_step outcomes 4 0 st4 b4 h4,
        getAgentValidationGo_httpFail_exhausted outcomes 5 st5 b5 h5]
    refine ⟨rfl, by norm_num, rfl⟩
  · intro st0 b0 st1 b1 c m h0 h1 h2
    rw [getAgentValidationGo_httpFail_step outcomes 0 4 st0 b0 h0,
        getAgentValidationGo_httpFail_step outcomes 1 3 st1 b1 h1,
        getAgentValidationGo_success outcomes 2 3 c m h2]
    refine ⟨rfl, by norm_num, by norm_num, rfl⟩
  · intro h0
    rw [getAgentValidationGo_netFail outcomes 0 5 h0]
    exact ⟨rfl, rfl, rfl⟩

/-- A stubbed remote that fails the first two validation attempts and then
succeeds. -/
def twoFailThenOk : Nat → ValidationOutcome := fun n =>
  if n < 2 then ValidationOutcome.httpFail 500 "transient"
  else ValidationOutcome.success (some "real") (some "looks right")

theorem getAgentValidation_retry_policy_witness :
    ("api-key" ≠ "") ∧ ("app-id" ≠ "") ∧
    twoFailThenOk 0 = ValidationOutcome.httpFail 500 "transient" ∧
    (getAgentValidation "api-key" "app-id" twoFailThenOk).delays = [1, 2] :=
  ⟨by decide, by decide, rfl,
   ((getAgentValidation_retry_policy twoFailThenOk "api-key" "app-id"
      (by decide) (by decide)).2.1 500 "transient" 500 "transient"
      (some "real") (some "looks right") rfl rfl rfl).2.1⟩

/-- Function `ensureUUID` always replaces an `auto-verified-*` name by the next fresh
UUID draw, since such a name never matches the UUID regex. -/
theorem ensureUUIDStep_autoVerified (r : String) (fresh : Nat → String) (k : Nat) :
    ensureUUIDStep (some ("auto-verified-" ++ r)) fresh k = (fresh k, k + 1) := by
  unfold ensureUUIDStep ensureUUIDConsumes
  simp [isUUIDFormat_autoVerified]

/-- A concrete handler environment whose pre-check is disabled and whose
remote create-task endpoint would answer successfully. -/
def preDisabledEnv : HandlerEnv :=
  { configOk := true
    pre := { enabled := false, apiKeyPresent := false, collab := CollabOutcome.netError }
    createFetch := CreateFetch.reply true (some { success := true, dataId := some "task-123" })
    extract := fun s => s
    now := 1700000000000
    fresh := fun k =>
      if k = 0 then "11111111-1111-1111-1111-111111111111"
      else "22222222-2222-2222-2222-222222222222" }

/-- A concrete incoming message with well-formed UUIDs. -/
def sampleMessage : MessageInfo :=
  { userId := some "33333333-3333-3333-3333-333333333333"
    roomId := some "44444444-4444-4444-4444-444444444444"
    text := "" }

/-- Options submitting the content `"Hello world"` without skipping the
pre-check. -/
def helloOptions : HandlerOptions := { content := some "Hello world" }

/-- C1.  As stated, the claim is false for a disabled pre-check: with
pre-verification disabled, `preVerifyContent` returns `passes == true`, so
the handler auto-approves — zero `createVerificationTask` calls, an audit
memory write tagged `contentAutoApproved` (none tagged `contentVerification`),
and a reported status of `"approved"`, not `"pending"`. -/
theorem verifyGenerationContent_disabled_goes_auto :
    (verifyGenerationContentHandler preDisabledEnv sampleMessage
        (some helloOptions)).1.countP isCreateCall = 0 ∧
    (verifyGenerationContentHandler preDisabledEnv sampleMessage
        (some helloOptions)).1.countP (isMemoryWriteTagged "contentVerification") = 0 ∧
    (verifyGenerationContentHandler preDisabledEnv sampleMessage
        (some helloOptions)).1.countP (isMemoryWriteTagged "contentAutoApproved") = 1 ∧
    callbackStatuses (verifyGenerationContentHandler preDisabledEnv sampleMessage
        (some helloOptions)).1 = [some "approved"] := by
  decide

/-- C1 (amended).  For every content submission where the pre-check is
explicitly skipped by the caller (`skipPreVerification`), or where the
pre-check runs and returns `passes == false`, the handler calls
`createVerificationTask` exactly once; and when the remote call returns a
task record, it writes exactly one audit memory entry tagged
`contentVerification` and reports status `"pending"` with the (non-empty)
remote task id.  (When the pre-check is disabled or unconfigured it reports
`passes == true` and the handler auto-approves instead — see the
counterexample.) -/
theorem verifyGenerationContent_createPath :
    ∀ (env : HandlerEnv) (msg : MessageInfo) (o : HandlerOptions) (content : String)
      (r : CreateTaskResponse),
      env.configOk = true →
      o.content = some content → content ≠ "" → jsTrim content ≠ "" →
      (o.skipPreVerification.getD false = true ∨
        (o.skipPreVerification.getD false = false ∧
          (preVerifyContent env.pre).passes = false)) →
      createGenerationVerificationTask content env.createFetch = Except.ok r →
      (verifyGenerationContentHandler env msg (some o)).1.countP isCreateCall = 1 ∧
      (verifyGenerationContentHandler env msg (some o)).1.countP
          (isMemoryWriteTagged "contentVerification") = 1 ∧
      callbackStatuses (verifyGenerationContentHandler env msg (some o)).1
          = [some "pending"] ∧
      callbackTaskIds (verifyGenerationContentHandler env msg (some o)).1
          = [some r.id] ∧
      r.id ≠ "" ∧
      (verifyGenerationContentHandler env msg (some o)).2 = true := by
  intro env msg o content r hcfg hco hcne htrim hbr hok
  have hid : r.id ≠ "" := createTask_ok_id hok
  have hred : verifyGenerationContentHandler env msg (some o)
      = createTaskPath env content := by
    unfold verifyGenerationContentHandler
    rw [hcfg]
    simp only [Bool.not_true, Bool.false_eq_true, if_false, hco]
    rw [if_neg hcne, if_neg htrim]
    rcases hbr with hskip | hskip
    · rw [hskip]
      simp only [if_true]
    · rw [hskip.1]
      simp only [Bool.false_eq_true, if_false]
      rw [hskip.2]
      simp only [Bool.false_eq_true, if_false]
  have hpath : createTaskPath env content
      = ([HandlerEffect.remoteCreateCall content,
          HandlerEffect.memoryWrite "contentVerification" r.id,
          HandlerEffect.callbackCall (some "pending") (some r.id) none], true) := by
    unfold createTaskPath
    rw [hok]
    simp only [if_neg hid]
  refine ⟨?_, ?_, ?_, ?_, hid, ?_⟩ <;> rw [hred, hpath] <;>
    simp [isCreateCall, isMemoryWriteTagged, callbackStatuses, callbackTaskIds,
      List.countP_cons, List.countP_nil]

/-- A concrete environment whose pre-check would reject the content and whose
remote create-task endpoint answers successfully. -/
def rejectingPreEnv : HandlerEnv :=
  { configOk := true
    pre := { enabled := true, apiKeyPresent := true
             collab := CollabOutcome.ok { passes := false, failedChecks := ["tone"] } }
    createFetch := CreateFetch.reply true (some { success := true, dataId := some "task-123" })
    extract := fun s => s
    now := 1700000000000
    fresh := fun _ => "99999999-9999-4999-8999-999999999999" }

theorem verifyGenerationContent_createPath_witness :
    rejectingPreEnv.configOk = true ∧
    (preVerifyContent rejectingPreEnv.pre).passes = false ∧
    createGenerationVerificationTask "Hello world" rejectingPreEnv.createFetch
      = Except.ok { success := true, id := "task-123" } ∧
    callbackStatuses (verifyGenerationContentHandler rejectingPreEnv sampleMessage
      (some helloOptions)).1 = [some "pending"] ∧
    callbackTaskIds (verifyGenerationContentHandler rejectingPreEnv sampleMessage
      (some helloOptions)).1 = [some "task-123"] :=
  ⟨rfl, rfl, rfl,
   (verifyGenerationContent_createPath rejectingPreEnv sampleMessage helloOptions
      "Hello world" { success := true, id := "task-123" }
      rfl rfl (by decide) (by decide) (Or.inr ⟨rfl, rfl⟩) rfl).2.2.1,
   (verifyGenerationContent_createPath rejectingPreEnv sampleMessage helloOptions
      "Hello world" { success := true, id := "task-123" }
      rfl rfl (by decide) (by decide) (Or.inr ⟨rfl, rfl⟩) rfl).2.2.2.1⟩

/-- A pre-check environment whose collaborator approves the content. -/
def approvingPre : PreCheckEnv :=
  { enabled := true, apiKeyPresent := true
    collab := CollabOutcome.ok { passes := true, failedChecks := [] } }

/-- Two handler environments over the identical submission (same content,
clock and collaborators) differing only in the `uuidv4()` draws. -/
def freshEnvA : HandlerEnv :=
  { configOk := true
    pre := approvingPre
    createFetch := CreateFetch.reply true (some { success := true, dataId := some "task-123" })
    extract := fun s => s
    now := 1700000000000
    fresh := fun _ => "aaaaaaaa-aaaa-4aaa-8aaa-aaaaaaaaaaaa" }

def freshEnvB : HandlerEnv :=
  { configOk := true
    pre := approvingPre
    createFetch := CreateFetch.reply true (some { success := true, dataId := some "task-123" })
    extract := fun s => s
    now := 1700000000000
    fresh := fun _ => "bbbbbbbb-bbbb-4bbb-8bbb-bbbbbbbbbbbb" }

/-- C5.  As stated, the claim is false on one point: the locally synthesized
task id is not deterministic.  The handler builds the name
`auto-verified-<Date.now()>`, which never matches the UUID regex, so
`ensureUUID` discards it and draws a fresh random UUID: two runs over the
identical submission that differ only in the `uuidv4()` draws report
different task ids. -/
theorem autoApproved_taskId_not_deterministic :
    callbackTaskIds (verifyGenerationContentHandler freshEnvA sampleMessage
        (some helloOptions)).1 = [some "aaaaaaaa-aaaa-4aaa-8aaa-aaaaaaaaaaaa"] ∧
    callbackTaskIds (verifyGenerationContentHandler freshEnvB sampleMessage
        (some helloOptions)).1 = [some "bbbbbbbb-bbbb-4bbb-8bbb-bbbbbbbbbbbb"] ∧
    callbackTaskIds (verifyGenerationContentHandler freshEnvA sampleMessage
        (some helloOptions)).1
      ≠ callbackTaskIds (verifyGenerationContentHandler freshEnvB sampleMessage
        (some helloOptions)).1 := by
  decide

/-- C5 (amended).  For every content submission where the pre-check runs and
returns `passes == true`, the handler synthesizes a fresh, locally generated
task id (a `uuidv4()` draw — local, not obtained from the remote service, but
not a deterministic function of the submission), emits a
`verificationResult` with `answer = true` and zero votes required and zero
votes received, writes exactly one audit memory entry tagged
`contentAutoApproved`, and makes no remote task-creation call. -/
theorem verifyGenerationContent_autoApprove :
    ∀ (env : HandlerEnv) (msg : MessageInfo) (o : HandlerOptions) (content : String),
      env.configOk = true →
      o.content = some content → content ≠ "" → jsTrim content ≠ "" →
      o.skipPreVerification.getD false = false →
      (preVerifyContent env.pre).passes = true →
      ∃ k : Nat,
        (verifyGenerationContentHandler env msg (some o)).1 =
          [HandlerEffect.callbackCall (some "approved") (some (env.fresh k))
            (some (autoApprovedResult (env.fresh k) content)),
           HandlerEffect.memoryWrite "contentAutoApproved" (env.fresh k)] ∧
        (verifyGenerationContentHandler env msg (some o)).2 = true ∧
        (autoApprovedResult (env.fresh k) content).answer = some true ∧
        (autoApprovedResult (env.fresh k) content).votesReceived = 0 ∧
        (autoApprovedResult (env.fresh k) content).votesRequired = 0 ∧
        (verifyGenerationContentHandler env msg (some o)).1.countP isCreateCall = 0 ∧
        (verifyGenerationContentHandler env msg (some o)).1.countP
            (isMemoryWriteTagged "contentAutoApproved") = 1 := by
  intro env msg o content hcfg hco hcne htrim hskip hpass
  refine ⟨(ensureUUIDStep msg.userId env.fresh 0).2, ?_⟩
  have hred : verifyGenerationContentHandler env msg (some o)
      = ([HandlerEffect.callbackCall (some "approved")
            (some (env.fresh (ensureUUIDStep msg.userId env.fresh 0).2))
            (some (autoApprovedResult
              (env.fresh (ensureUUIDStep msg.userId env.fresh 0).2) content)),
          HandlerEffect.memoryWrite "contentAutoApproved"
            (env.fresh (ensureUUIDStep msg.userId env.fresh 0).2)], true) := by
    unfold verifyGenerationContentHandler
    rw [hcfg]
    simp only [Bool.not_true, Bool.false_eq_true, if_false, hco]
    rw [if_neg hcne, if_neg htrim]
    rw [hskip]
    simp only [Bool.false_eq_true, if_false]
    rw [hpass]
    simp only [if_true]
    rw [ensureUUIDStep_autoVerified (toString env.now) env.fresh
      (ensureUUIDStep msg.userId env.fresh 0).2]
  rw [hred]
  refine ⟨rfl, rfl, rfl, rfl, rfl, ?_, ?_⟩ <;>
    simp [isCreateCall, isMemoryWriteTagged, List.countP_cons, List.countP_nil]

theorem verifyGenerationContent_autoApprove_witness :
    freshEnvA.configOk = true ∧
    (preVerifyContent freshEnvA.pre).passes = true ∧
    (∃ k : Nat,
        (verifyGenerationContentHandler freshEnvA sampleMessage (some helloOptions)).1 =
          [HandlerEffect.callbackCall (some "approved") (some (freshEnvA.fresh k))
            (some (autoApprovedResult (freshEnvA.fresh k) "Hello world")),
           HandlerEffect.memoryWrite "contentAutoApproved" (freshEnvA.fresh k)] ∧
        (verifyGenerationContentHandler freshEnvA sampleMessage (some helloOptions)).2 = true ∧
        (autoApprovedResult (freshEnvA.fresh k) "Hello world").answer = some true ∧
        (autoApprovedResult (freshEnvA.fresh k) "Hello world").votesReceived = 0 ∧
        (autoApprovedResult (freshEnvA.fresh k) "Hello world").votesRequired = 0 ∧
        (verifyGenerationContentHandler freshEnvA sampleMessage
            (some helloOptions)).1.countP isCreateCall = 0 ∧
        (verifyGenerationContentHandler freshEnvA sampleMessage
            (some helloOptions)).1.countP (isMemoryWriteTagged "contentAutoApproved") = 1) :=
  ⟨rfl, rfl,
   verifyGenerationContent_autoApprove freshEnvA sampleMessage helloOptions "Hello world"
     rfl rfl (by decide) (by decide) rfl rfl⟩

end Raiinmaker
